import Mathlib

/-!
Verification of the experiment execution and resource-estimation engine.

A shallow embedding, in Lean 4, of the core of the `lab-prototype` backend:
`QuantumModuleManager` (backend/quantum/manager.py), `MockQuantumAdapter`
(backend/quantum/modules/mock_adapter.py) and `AntimatterSimulator`
(backend/quantum/modules/antimatter.py), together with theorems settling the
behavioural claims about this core.

Modelling conventions:
* Python floats are modelled as exact rationals (`ℚ`); every arithmetic
  operation of the source is mirrored exactly.  The single irrational value
  produced by the source (the dipole norm `(dx**2+dy**2+dz**2)**0.5`) is kept
  symbolic via the `Val.sqrtOf` constructor.
* Python dicts that flow through generic code (the dispatch manager treats the
  engine results as plain dicts: key tests, key insertion) are modelled by the
  JSON-like type `Val`; the kind-specific engine results are additionally given
  typed records mirroring the dict literals of the source, with `…toVal`
  conversions listing the keys in the source's construction order.
* Calls into the `random` / `numpy.random` libraries are defunctionalised:
  every call site of the source corresponds to one field of a `…Draws`
  record.  `random.randint(a, b)` (inclusive) is rendered as `a + draw % (b-a+1)`
  for a draw `draw : ℕ`, and `random.choice(xs)` as indexing by `draw % xs.length`,
  so the library's range guarantees hold by construction; `random.uniform(a, b)`
  is rendered by the drawn value itself, its range `[a, b]` being a library
  guarantee that theorems take as a hypothesis where they need it.
* Wall-clock reads (`time.time()` differences, `datetime.now().isoformat()`)
  are ambient inputs, passed as explicit parameters.
* The deployment under verification runs in mock mode (`USING_MOCK = True` in
  manager.py: the qiskit import is absent); the manager embedding below renders
  the mock-mode branch of `run_experiment` / `estimate_resources`.
-/

/-- Python `int(q)` on a float: truncation toward zero. -/
def pyInt (q : ℚ) : ℤ :=
  if 0 ≤ q then ⌊q⌋ else ⌈q⌉

/-- Round half to even to an integer: the rounding used by Python's `round`
and by its fixed-point string formatting (on the exact rational idealisation
of the float values). -/
def pyRoundHalfEven (x : ℚ) : ℤ :=
  let f := ⌊x⌋
  let r := x - f
  if r < 1/2 then f
  else if 1/2 < r then f + 1
  else if f % 2 = 0 then f else f + 1

/-- Python `round(x, 2)`. -/
def pyRound2 (x : ℚ) : ℚ :=
  (pyRoundHalfEven (x * 100) : ℚ) / 100

/-- Python `f"{x:.1f}"`: fixed-point formatting with one decimal place. -/
def formatFix1 (q : ℚ) : String :=
  let n := pyRoundHalfEven (q * 10)
  let sign := if n < 0 then "-" else ""
  let m := n.natAbs
  sign ++ toString (m / 10) ++ "." ++ toString (m % 10)

/-- Python `f"{x:.2f}"`: fixed-point formatting with two decimal places. -/
def formatFix2 (q : ℚ) : String :=
  let n := pyRoundHalfEven (q * 100)
  let sign := if n < 0 then "-" else ""
  let m := n.natAbs
  let frac := m % 100
  sign ++ toString (m / 100) ++ "." ++ toString (frac / 10) ++ toString (frac % 10)

/-- Python `s.lower()` (the identifiers the source lowercases are ASCII, on
which `Char.toLower` coincides with Python's case mapping). -/
def pyLower (s : String) : String :=
  ⟨s.data.map Char.toLower⟩

/-- Python `s.upper()` (ASCII, as for `pyLower`). -/
def pyUpper (s : String) : String :=
  ⟨s.data.map Char.toUpper⟩

/-- Character-list prefix test underlying `pyStartsWith`. -/
def chListStartsWith : List Char → List Char → Bool
  | _, [] => true
  | [], _ :: _ => false
  | c :: cs, p :: ps => c = p && chListStartsWith cs ps

/-- Python `s.startswith(pre)`. -/
def pyStartsWith (s pre : String) : Bool :=
  chListStartsWith s.data pre.data

/-- A Python value as it appears in the result dictionaries of the engine:
numbers (ints and floats, modelled as exact rationals), strings, booleans,
lists, dicts (ordered association lists, as Python dicts preserve insertion
order), and `sqrtOf q` for the one square root the source computes
(`(dx**2+dy**2+dz**2) ** 0.5`), representing the non-negative real root of `q`. -/
inductive Val where
  | num (q : ℚ)
  | str (s : String)
  | bool (b : Bool)
  | arr (xs : List Val)
  | obj (fields : List (String × Val))
  | sqrtOf (q : ℚ)
deriving Repr

/-- Lookup of a key in an ordered field list (Python `d[k]` / `k in d`). -/
def lookupField : List (String × Val) → String → Option Val
  | [], _ => none
  | (k', v) :: rest, k => if k' = k then some v else lookupField rest k

/-- Set a key in an ordered field list (Python `d[k] = v`): replaces the value
in place if the key is present, appends the pair otherwise. -/
def setField : List (String × Val) → String → Val → List (String × Val)
  | [], k, x => [(k, x)]
  | (k', v) :: rest, k, x =>
    if k' = k then (k, x) :: rest else (k', v) :: setField rest k x

/-- Embedding of `v.get? k`: Python `d.get(k)` on a dict value, `none` on non-dicts. -/
def Val.get? (v : Val) (k : String) : Option Val :=
  match v with
  | .obj fs => lookupField fs k
  | _ => none

/-- Embedding of `v.set k x`: Python `d[k] = x` on a dict value, identity on non-dicts. -/
def Val.set (v : Val) (k : String) (x : Val) : Val :=
  match v with
  | .obj fs => .obj (setField fs k x)
  | other => other

/-- An atom record of the mock catalog: `{"symbol": …, "x": …, "y": …, "z": …}`. -/
structure Atom where
  symbol : String
  x : ℚ
  y : ℚ
  z : ℚ
deriving Repr, DecidableEq

/-- A molecular-system record of the mock catalog (`MockQuantumAdapter.SYSTEMS`). -/
structure Molecule where
  id : String
  name : String
  description : String
  atoms : List Atom
  charge : ℤ
  multiplicity : ℕ
deriving Repr, DecidableEq

namespace MockQuantumAdapter

/-- Embedding of `MockQuantumAdapter.SYSTEMS`: the static catalog of four molecules. -/
def SYSTEMS : List Molecule :=
  [ { id := "h2o", name := "Water", description := "Water molecule (H2O)",
      atoms :=
        [ ⟨"O", 0, 0, 0⟩,
          ⟨"H", 0, 757/1000, 587/1000⟩,
          ⟨"H", 0, -757/1000, 587/1000⟩ ],
      charge := 0, multiplicity := 1 },
    { id := "ch4", name := "Methane", description := "Methane molecule (CH4)",
      atoms :=
        [ ⟨"C", 0, 0, 0⟩,
          ⟨"H", 626/1000, 626/1000, 626/1000⟩,
          ⟨"H", -626/1000, -626/1000, 626/1000⟩,
          ⟨"H", -626/1000, 626/1000, -626/1000⟩,
          ⟨"H", 626/1000, -626/1000, -626/1000⟩ ],
      charge := 0, multiplicity := 1 },
    { id := "nh3", name := "Ammonia", description := "Ammonia molecule (NH3)",
      atoms :=
        [ ⟨"N", 0, 0, 0⟩,
          ⟨"H", 0, -934/1000, -374/1000⟩,
          ⟨"H", 809/1000, 467/1000, -374/1000⟩,
          ⟨"H", -809/1000, 467/1000, -374/1000⟩ ],
      charge := 0, multiplicity := 1 },
    { id := "co2", name := "Carbon Dioxide", description := "Carbon dioxide molecule (CO2)",
      atoms :=
        [ ⟨"C", 0, 0, 0⟩,
          ⟨"O", 0, 0, 116/100⟩,
          ⟨"O", 0, 0, -116/100⟩ ],
      charge := 0, multiplicity := 1 } ]

/-- The water entry of the catalog (`SYSTEMS[0]`), named for use at concrete
inputs. -/
def h2oSystem : Molecule :=
  { id := "h2o", name := "Water", description := "Water molecule (H2O)",
    atoms :=
      [ ⟨"O", 0, 0, 0⟩,
        ⟨"H", 0, 757/1000, 587/1000⟩,
        ⟨"H", 0, -757/1000, 587/1000⟩ ],
    charge := 0, multiplicity := 1 }

/-- The carbon-dioxide entry of the catalog (`SYSTEMS[3]`), named for use at
concrete inputs. -/
def co2System : Molecule :=
  { id := "co2", name := "Carbon Dioxide", description := "Carbon dioxide molecule (CO2)",
    atoms :=
      [ ⟨"C", 0, 0, 0⟩,
        ⟨"O", 0, 0, 116/100⟩,
        ⟨"O", 0, 0, -116/100⟩ ],
    charge := 0, multiplicity := 1 }

/-- Embedding of `self.reference_energies`: the fixed (molecule × basis set) reference table. -/
def reference_energies : List (String × List (String × ℚ)) :=
  [ ("h2o",
      [ ("sto-3g", -74963/1000), ("3-21g", -75585/1000), ("6-31g", -76010/1000),
        ("cc-pvdz", -76241/1000), ("cc-pvtz", -76332/1000) ]),
    ("ch4",
      [ ("sto-3g", -39726/1000), ("3-21g", -40195/1000), ("6-31g", -40462/1000),
        ("cc-pvdz", -40513/1000), ("cc-pvtz", -40535/1000) ]),
    ("nh3",
      [ ("sto-3g", -55454/1000), ("3-21g", -55987/1000), ("6-31g", -56215/1000),
        ("cc-pvdz", -56298/1000), ("cc-pvtz", -56395/1000) ]),
    ("co2",
      [ ("sto-3g", -185253/1000), ("3-21g", -186565/1000), ("6-31g", -187675/1000),
        ("cc-pvdz", -187723/1000), ("cc-pvtz", -187968/1000) ]) ]

/-- Embedding of `self.reference_energies.get(system_id, {}).get(basis_set)`. -/
def referenceEnergy (system_id basis_set : String) : Option ℚ :=
  match reference_energies.lookup system_id with
  | none => none
  | some table => table.lookup basis_set

/-- Embedding of `MockQuantumAdapter._get_num_electrons`. -/
def get_num_electrons (element : String) : ℕ :=
  let table : List (String × ℕ) :=
    [ ("H", 1), ("He", 2), ("Li", 3), ("Be", 4), ("B", 5), ("C", 6), ("N", 7),
      ("O", 8), ("F", 9), ("Ne", 10), ("Na", 11), ("Mg", 12), ("Al", 13),
      ("Si", 14), ("P", 15), ("S", 16), ("Cl", 17), ("Ar", 18) ]
  (table.lookup element).getD 6

/-- Embedding of `MockQuantumAdapter._format_time`. -/
def format_time (seconds : ℚ) : String :=
  if seconds < 60 then formatFix1 seconds ++ " seconds"
  else if seconds < 3600 then formatFix1 (seconds / 60) ++ " minutes"
  else if seconds < 86400 then formatFix1 (seconds / 3600) ++ " hours"
  else formatFix1 (seconds / 86400) ++ " days"

end MockQuantumAdapter

/-- The experiment configuration map, restricted to the keys the core reads
(`configuration.get("algorithm", "")`, `.get("ansatz", "")`,
`.get("basis_set", "sto-3g")`, `.get("experiment_type", "ground_state")` in
manager.py, and `kwargs.get("num_states", 3)` in mock_adapter.py after the
`**configuration` expansion).  A `none` field models an absent key. -/
structure Config where
  algorithm : Option String := none
  ansatz : Option String := none
  basis_set : Option String := none
  experiment_type : Option String := none
  num_states : Option ℕ := none

/-- How a delay is realised by the host language. `blockingSleep` renders a
synchronous `time.sleep` call on the current thread; `cooperativeYield` would
render an `await asyncio.sleep` suspension point of a coroutine. -/
inductive DelayMechanism where
  | blockingSleep
  | cooperativeYield
deriving Repr, DecidableEq

/-- The observable delay effect: its mechanism and its duration in seconds. -/
structure DelayEffect where
  mechanism : DelayMechanism
  duration : ℚ
deriving Repr, DecidableEq

namespace MockQuantumAdapter

/-- Embedding of `MockQuantumAdapter._simulate_calculation_time`: computes
`sim_time = num_atoms * basis_factor * factor * 0.05` and performs
`time.sleep(sim_time)` (mock_adapter.py:493) — a synchronous, thread-blocking
sleep (the adapter's methods are plain `def`s, not `async def` coroutines).
The embedding records the effect as data. -/
def simulate_calculation_time (molecule_data : Molecule) (basis_set : String)
    (factor : ℚ := 1) : DelayEffect :=
  let num_atoms := molecule_data.atoms.length
  let basis_factors : List (String × ℚ) :=
    [ ("sto-3g", 1/10), ("3-21g", 2/10), ("6-31g", 3/10),
      ("cc-pvdz", 5/10), ("cc-pvtz", 1) ]
  let basis_factor := (basis_factors.lookup basis_set).getD (1/10)
  { mechanism := .blockingSleep,
    duration := (num_atoms : ℚ) * basis_factor * factor * (5/100) }

/-- Embedding of `MockQuantumAdapter._calculate_runtime`; `uniformDraw` is the value drawn
by `random.uniform(0, 0.4)`. -/
def calculate_runtime (molecule_data : Molecule) (basis_set : String)
    (factor : ℚ) (uniformDraw : ℚ) : ℚ :=
  let num_atoms := molecule_data.atoms.length
  let basis_factors : List (String × ℚ) :=
    [ ("sto-3g", 1), ("3-21g", 2), ("6-31g", 3), ("cc-pvdz", 5), ("cc-pvtz", 10) ]
  let basis_factor := (basis_factors.lookup basis_set).getD 1
  let base_time := (num_atoms : ℚ) ^ 2 * basis_factor * factor
  base_time * (8/10 + uniformDraw)

/-- An orbital record of a ground-state result. -/
structure Orbital where
  index : ℕ
  energy : ℚ
  occupation : ℚ
  symmetry : String
deriving Repr, DecidableEq

/-- The random draws of one `run_ground_state_calculation` call, one field per
`random.*` call site, in source order. -/
structure GroundDraws where
  /-- `random.uniform(-0.5, 0.5)` of the synthesized reference energy
  (consumed only when the reference table has no entry). -/
  refNoise : ℚ := 0
  /-- `random.uniform(-0.001, 0.001)` added to the reference energy. -/
  energyNoise : ℚ := 0
  /-- `random.uniform(-0.01, 0.01)` of orbital `i`'s energy. -/
  orbNoise : ℕ → ℚ := fun _ => 0
  /-- index drawn by `random.choice(["A1", "A2", "B1", "B2"])` for orbital `i`
  (the choice is the list entry at this index modulo 4). -/
  symIdx : ℕ → ℕ := fun _ => 0
  /-- `random.randint(10, 30)` offset: iterations = `10 + iterDraw % 21`. -/
  iterDraw : ℕ := 0
  /-- `random.uniform(0, 0.4)` inside `_calculate_runtime`. -/
  runtimeDraw : ℚ := 0
  /-- the three `random.uniform(-0.5, 0.5)` dipole components. -/
  dipX : ℚ := 0
  dipY : ℚ := 0
  dipZ : ℚ := 0

/-- The result dict of `run_ground_state_calculation`, as a typed record
(fields in the dict's construction order). -/
structure GroundResult where
  energy : ℚ
  reference_energy : ℚ
  iterations : ℕ
  runtime : ℚ
  orbitals : List Orbital
  converged : Bool
  dipole_moment : List ℚ
  method : String
  basis_set : String
  timestamp : String
deriving Repr

/-- Embedding of `MockQuantumAdapter.run_ground_state_calculation`.  `ts` is the
`datetime.now().isoformat()` string.  The `_simulate_calculation_time` delay
effect does not contribute to the returned dict (see `simulate_calculation_time`). -/
def run_ground_state_calculation (molecule_data : Molecule) (basis_set : String)
    (d : GroundDraws) (ts : String) : GroundResult :=
  let system_id := molecule_data.id
  let reference_energy :=
    match referenceEnergy system_id basis_set with
    | some e => e
    | none => -50 - (molecule_data.atoms.length : ℚ) * 10 + d.refNoise
  let energy := reference_energy + d.energyNoise
  let num_orbitals := molecule_data.atoms.length * 2
  let orbitals := (List.range num_orbitals).map fun i =>
    { index := i,
      energy := -10 + (i : ℚ) * (1/2) + d.orbNoise i,
      occupation := if i < num_orbitals / 2 then 2 else 0,
      symmetry := (["A1", "A2", "B1", "B2"].getD (d.symIdx i % 4) "A1") : Orbital }
  { energy := energy,
    reference_energy := reference_energy,
    iterations := 10 + d.iterDraw % 21,
    runtime := calculate_runtime molecule_data basis_set 1 d.runtimeDraw,
    orbitals := orbitals,
    converged := true,
    dipole_moment := [d.dipX, d.dipY, d.dipZ],
    method := "RHF",
    basis_set := basis_set,
    timestamp := ts }

/-- An excited-state record of an excited-state result. -/
structure ExcitedState where
  state : ℕ
  excitation_energy_ev : ℚ
  excitation_energy : ℚ
  total_energy : ℚ
  oscillator_strength : ℚ
  description : String
deriving Repr

/-- The random draws of one `run_excited_state_calculation` call.  The nested
ground-state call consumes its own fresh draws `ground`. -/
structure ExcitedDraws where
  ground : GroundDraws := {}
  /-- `random.uniform(-0.02, 0.02)` of state `i`'s excitation energy. -/
  excNoise : ℕ → ℚ := fun _ => 0
  /-- `random.uniform(0.01, 1.0)` oscillator strength of state `i`. -/
  oscDraw : ℕ → ℚ := fun _ => 0
  /-- `random.uniform(0.7, 0.95)` inside state `i`'s description string. -/
  descDraw : ℕ → ℚ := fun _ => 0
  /-- `random.randint(15, 45)` offset: iterations = `15 + iterDraw % 31`. -/
  iterDraw : ℕ := 0
  /-- `random.uniform(0, 0.4)` inside `_calculate_runtime`. -/
  runtimeDraw : ℚ := 0

/-- The result dict of `run_excited_state_calculation`, as a typed record. -/
structure ExcitedResult where
  energy : ℚ
  reference_energy : ℚ
  iterations : ℕ
  runtime : ℚ
  excited_states : List ExcitedState
  ground_state_data : GroundResult
  method : String
  basis_set : String
  timestamp : String
deriving Repr

/-- Embedding of `MockQuantumAdapter.run_excited_state_calculation`: runs
`run_ground_state_calculation` first and builds `num_states`
(= `kwargs.get("num_states", 3)`) excited levels on top of it. -/
def run_excited_state_calculation (molecule_data : Molecule) (basis_set : String)
    (kwargs : Config) (d : ExcitedDraws) (ts : String) : ExcitedResult :=
  let ground_state := run_ground_state_calculation molecule_data basis_set d.ground ts
  let num_states := kwargs.num_states.getD 3
  let excited_states := (List.range num_states).map fun (i : ℕ) =>
    let excitation_energy := ((i : ℚ) + 1) * (1/10) + d.excNoise i
    let total_energy := ground_state.energy + excitation_energy
    let oscillator_strength := d.oscDraw i
    { state := i + 1,
      excitation_energy_ev := excitation_energy * (272114/10000),
      excitation_energy := excitation_energy,
      total_energy := total_energy,
      oscillator_strength := oscillator_strength,
      description := "HOMO->" ++ toString i ++ " (" ++ formatFix2 (d.descDraw i) ++ ")" : ExcitedState }
  { energy := ground_state.energy,
    reference_energy := ground_state.reference_energy,
    iterations := 15 + d.iterDraw % 31,
    runtime := calculate_runtime molecule_data basis_set (15/10) d.runtimeDraw,
    excited_states := excited_states,
    ground_state_data := ground_state,
    method := "TD-RHF",
    basis_set := basis_set,
    timestamp := ts }

/-- An optimization-trajectory step of a geometry-optimization result. -/
structure OptStep where
  step : ℕ
  energy : ℚ
  rms_gradient : ℚ
  max_force : ℚ
deriving Repr

/-- The `optimized_geometry` sub-dict of a geometry-optimization result. -/
structure OptimizedGeometry where
  atoms : List Atom
  charge : ℤ
  multiplicity : ℕ
deriving Repr, DecidableEq

/-- The random draws of one `run_geometry_optimization` call. -/
structure GeomDraws where
  /-- `random.uniform(-0.5, 0.5)` of the synthesized reference energy. -/
  refNoise : ℚ := 0
  /-- `random.uniform(-0.001, 0.001)` added to the reference energy. -/
  energyNoise : ℚ := 0
  /-- the three `random.uniform(-0.02, 0.02)` coordinate perturbations of atom `j`. -/
  perturb : ℕ → ℚ × ℚ × ℚ := fun _ => (0, 0, 0)
  /-- `random.randint(5, 15)` offset: num_steps = `5 + stepsDraw % 11`. -/
  stepsDraw : ℕ := 0
  /-- `random.uniform(0.1, 0.3)` start-energy offset. -/
  startDraw : ℚ := 0
  /-- `random.uniform(-0.001, 0.001)` of step `i`'s energy. -/
  stepNoise : ℕ → ℚ := fun _ => 0
  /-- `random.uniform(-0.005, 0.005)` of step `i`'s RMS gradient. -/
  gradNoise : ℕ → ℚ := fun _ => 0
  /-- `random.uniform(-0.01, 0.01)` of step `i`'s max force. -/
  forceNoise : ℕ → ℚ := fun _ => 0
  /-- `random.randint(20, 50)` offset: iterations = `20 + iterDraw % 31`. -/
  iterDraw : ℕ := 0
  /-- `random.uniform(0, 0.4)` inside `_calculate_runtime`. -/
  runtimeDraw : ℚ := 0

/-- The result dict of `run_geometry_optimization`, as a typed record. -/
structure GeomResult where
  energy : ℚ
  reference_energy : ℚ
  iterations : ℕ
  runtime : ℚ
  optimized_geometry : OptimizedGeometry
  optimization_steps : List OptStep
  converged : Bool
  method : String
  basis_set : String
  timestamp : String
deriving Repr

/-- The step loop of `run_geometry_optimization`: starting from
`current_energy = energy + startDraw`, each step moves the current energy a
`(i+1)/num_steps` fraction of the way to `energy` plus noise, and records the
step together with a linearly decaying RMS gradient. -/
def optimizationSteps (energy : ℚ) (num_steps : ℕ) (d : GeomDraws) : List OptStep :=
  (((List.range num_steps).foldl (fun (acc : List OptStep × ℚ) (i : ℕ) =>
    let current_energy := acc.2
    let step_energy :=
      current_energy - (current_energy - energy) * (((i : ℚ) + 1) / (num_steps : ℚ))
        + d.stepNoise i
    let rms_gradient := (1/10) * (1 - (i : ℚ) / (num_steps : ℚ)) + d.gradNoise i
    (acc.1 ++ [{ step := i + 1,
                 energy := step_energy,
                 rms_gradient := rms_gradient,
                 max_force := rms_gradient * 2 + d.forceNoise i }],
     step_energy))
    ([], energy + d.startDraw))).1

/-- Embedding of `MockQuantumAdapter.run_geometry_optimization`. -/
def run_geometry_optimization (molecule_data : Molecule) (basis_set : String)
    (d : GeomDraws) (ts : String) : GeomResult :=
  let system_id := molecule_data.id
  let reference_energy :=
    match referenceEnergy system_id basis_set with
    | some e => e
    | none => -50 - (molecule_data.atoms.length : ℚ) * 10 + d.refNoise
  let energy := reference_energy + d.energyNoise
  let optimized_atoms := molecule_data.atoms.enum.map fun (p : ℕ × Atom) =>
    { symbol := p.2.symbol,
      x := p.2.x + (d.perturb p.1).1,
      y := p.2.y + (d.perturb p.1).2.1,
      z := p.2.z + (d.perturb p.1).2.2 : Atom }
  let num_steps := 5 + d.stepsDraw % 11
  { energy := energy,
    reference_energy := reference_energy,
    iterations := 20 + d.iterDraw % 31,
    runtime := calculate_runtime molecule_data basis_set 2 d.runtimeDraw,
    optimized_geometry :=
      { atoms := optimized_atoms,
        charge := molecule_data.charge,
        multiplicity := molecule_data.multiplicity },
    optimization_steps := optimizationSteps energy num_steps d,
    converged := true,
    method := "RHF",
    basis_set := basis_set,
    timestamp := ts }

/-- A per-atom displacement record of a vibrational mode. -/
structure Displacement where
  atom : ℕ
  dx : ℚ
  dy : ℚ
  dz : ℚ
deriving Repr

/-- A vibrational-mode record of a vibrational-analysis result. -/
structure VibrationMode where
  mode : ℕ
  frequency : ℚ
  intensity : ℚ
  reduced_mass : ℚ
  force_constant : ℚ
  displacements : List Displacement
deriving Repr

/-- The random draws of one `run_vibrational_analysis` call.  The nested
geometry-optimization call consumes its own fresh draws `opt`. -/
structure VibDraws where
  opt : GeomDraws := {}
  /-- `random.uniform(-50, 50)` of mode `i`'s frequency. -/
  freqNoise : ℕ → ℚ := fun _ => 0
  /-- `random.uniform(0, 100)` intensity of mode `i`. -/
  intensityDraw : ℕ → ℚ := fun _ => 0
  /-- `random.uniform(1.0, 5.0)` reduced mass of mode `i`. -/
  massDraw : ℕ → ℚ := fun _ => 0
  /-- `random.uniform(0.1, 0.5)` force constant of mode `i`. -/
  forceDraw : ℕ → ℚ := fun _ => 0
  /-- the three `random.uniform(-0.1, 0.1)` displacement components of
  mode `i`, atom `j`. -/
  dispDraw : ℕ → ℕ → ℚ × ℚ × ℚ := fun _ _ => (0, 0, 0)
  /-- `random.randint(30, 70)` offset: iterations = `30 + iterDraw % 41`. -/
  iterDraw : ℕ := 0
  /-- `random.uniform(0, 0.4)` inside `_calculate_runtime`. -/
  runtimeDraw : ℚ := 0

/-- The result dict of `run_vibrational_analysis`, as a typed record. -/
structure VibResult where
  energy : ℚ
  reference_energy : ℚ
  iterations : ℕ
  runtime : ℚ
  optimized_geometry : OptimizedGeometry
  vibrations : List VibrationMode
  zero_point_energy : ℚ
  method : String
  basis_set : String
  timestamp : String
deriving Repr

/-- Embedding of `MockQuantumAdapter.run_vibrational_analysis`: runs
`run_geometry_optimization` first; the number of modes is
`num_modes = 3 * num_atoms - 6` (the Python `range(3 * num_atoms - 6)` over an
`int` is empty when the count is negative, which the truncated `ℕ` subtraction
renders exactly). -/
def run_vibrational_analysis (molecule_data : Molecule) (basis_set : String)
    (d : VibDraws) (ts : String) : VibResult :=
  let opt_result := run_geometry_optimization molecule_data basis_set d.opt ts
  let num_atoms := molecule_data.atoms.length
  let num_modes := 3 * num_atoms - 6
  let vibrations := (List.range num_modes).map fun (i : ℕ) =>
    let frequency := ((i : ℚ) + 1) * 100 + d.freqNoise i
    let displacements := (List.range num_atoms).map fun (j : ℕ) =>
      { atom := j,
        dx := (d.dispDraw i j).1,
        dy := (d.dispDraw i j).2.1,
        dz := (d.dispDraw i j).2.2 : Displacement }
    { mode := i + 1,
      frequency := frequency,
      intensity := d.intensityDraw i,
      reduced_mass := d.massDraw i,
      force_constant := d.forceDraw i,
      displacements := displacements : VibrationMode }
  { energy := opt_result.energy,
    reference_energy := opt_result.reference_energy,
    iterations := 30 + d.iterDraw % 41,
    runtime := calculate_runtime molecule_data basis_set (25/10) d.runtimeDraw,
    optimized_geometry := opt_result.optimized_geometry,
    vibrations := vibrations,
    zero_point_energy :=
      (vibrations.map (fun v => max 0 v.frequency)).sum * (1/2) / (4184/1000) / 1000,
    method := "RHF",
    basis_set := basis_set,
    timestamp := ts }

/-- The `dipole_moment` sub-dict of a dipole-moment result; the `total` entry
of the source dict is `(dx**2 + dy**2 + dz**2) ** 0.5`, represented
symbolically by `Val.sqrtOf` in the `Val` rendering. -/
structure DipoleVector where
  x : ℚ
  y : ℚ
  z : ℚ
deriving Repr

/-- The random draws of one `run_dipole_moment` call.  The nested ground-state
call consumes its own fresh draws `ground`. -/
structure DipoleDraws where
  ground : GroundDraws := {}
  /-- the three `random.uniform(-2.0, 2.0)` dipole components. -/
  dx : ℚ := 0
  dy : ℚ := 0
  dz : ℚ := 0
  /-- `random.uniform(0, 0.4)` inside `_calculate_runtime`. -/
  runtimeDraw : ℚ := 0

/-- The result dict of `run_dipole_moment`, as a typed record. -/
structure DipoleResult where
  energy : ℚ
  reference_energy : ℚ
  iterations : ℕ
  runtime : ℚ
  dipole_moment : DipoleVector
  method : String
  basis_set : String
  timestamp : String
deriving Repr

/-- Embedding of `MockQuantumAdapter.run_dipole_moment`: runs `run_ground_state_calculation`
first and reuses its energy, reference energy and iteration count. -/
def run_dipole_moment (molecule_data : Molecule) (basis_set : String)
    (d : DipoleDraws) (ts : String) : DipoleResult :=
  let ground_state := run_ground_state_calculation molecule_data basis_set d.ground ts
  { energy := ground_state.energy,
    reference_energy := ground_state.reference_energy,
    iterations := ground_state.iterations,
    runtime := calculate_runtime molecule_data basis_set (5/10) d.runtimeDraw,
    dipole_moment := { x := d.dx, y := d.dy, z := d.dz },
    method := "RHF",
    basis_set := basis_set,
    timestamp := ts }

/-- A result of the mock engine: one of the five kind-specific result dicts. -/
inductive MockResult where
  | ground (g : GroundResult)
  | excited (e : ExcitedResult)
  | geom (g : GeomResult)
  | vib (v : VibResult)
  | dipole (p : DipoleResult)
deriving Repr

/-- The draws consumed by one `MockQuantumAdapter.run_experiment` call; the
selected branch consumes its own sub-record. -/
structure MockDraws where
  ground : GroundDraws := {}
  excited : ExcitedDraws := {}
  geom : GeomDraws := {}
  vib : VibDraws := {}
  dipole : DipoleDraws := {}

/-- Embedding of `MockQuantumAdapter.run_experiment`: the case selection on the experiment
kind; an unknown kind raises `ValueError(f"Unknown experiment type: …")`,
rendered as `Except.error`. -/
def run_experiment (experiment_type : String) (molecule_data : Molecule)
    (basis_set : String) (kwargs : Config) (d : MockDraws) (ts : String) :
    Except String MockResult :=
  if experiment_type = "ground_state" then
    .ok (.ground (run_ground_state_calculation molecule_data basis_set d.ground ts))
  else if experiment_type = "excited_state" then
    .ok (.excited (run_excited_state_calculation molecule_data basis_set kwargs d.excited ts))
  else if experiment_type = "geometry_optimization" then
    .ok (.geom (run_geometry_optimization molecule_data basis_set d.geom ts))
  else if experiment_type = "vibrational_analysis" then
    .ok (.vib (run_vibrational_analysis molecule_data basis_set d.vib ts))
  else if experiment_type = "dipole_moment" then
    .ok (.dipole (run_dipole_moment molecule_data basis_set d.dipole ts))
  else
    .error ("Unknown experiment type: " ++ experiment_type)

/-- The `molecule_size` sub-dict of a resource estimate. -/
structure MoleculeSize where
  atoms : ℕ
  electrons : ℕ
deriving Repr, DecidableEq

/-- The classical-resource estimate dict of `MockQuantumAdapter.estimate_resources`. -/
structure ClassicalEstimate where
  memory_mb : ℚ
  disk_mb : ℚ
  cpu_hours : ℚ
  estimated_runtime_sec : ℚ
  estimated_runtime_human : String
  basis_set_complexity : ℚ
  experiment_complexity : ℚ
  molecule_size : MoleculeSize
deriving Repr, DecidableEq

/-- Embedding of `MockQuantumAdapter.estimate_resources`: the molecular-complexity estimate
from electron count and the basis-set / experiment-type complexity factor
tables; the four numeric outputs are reported via Python's `round(x, 2)`. -/
def estimate_resources (molecule_data : Molecule) (basis_set : String)
    (experiment_type : String) : ClassicalEstimate :=
  let num_atoms := molecule_data.atoms.length
  let num_electrons := (molecule_data.atoms.map fun a => get_num_electrons a.symbol).sum
  let basis_factors : List (String × ℚ) :=
    [ ("sto-3g", 1), ("3-21g", 2), ("6-31g", 3), ("cc-pvdz", 4), ("cc-pvtz", 8) ]
  let basis_factor := (basis_factors.lookup basis_set).getD 1
  let experiment_factors : List (String × ℚ) :=
    [ ("ground_state", 1), ("excited_state", 25/10), ("geometry_optimization", 3),
      ("vibrational_analysis", 5), ("dipole_moment", 12/10) ]
  let experiment_factor := (experiment_factors.lookup experiment_type).getD 1
  let memory_mb := (num_electrons : ℚ) ^ 2 * basis_factor * experiment_factor * (1/10)
  let disk_mb := memory_mb * 5
  let cpu_hours := (num_electrons : ℚ) ^ 2 * basis_factor * experiment_factor * (1/100)
  let runtime_sec := cpu_hours * 3600 / 8
  { memory_mb := pyRound2 memory_mb,
    disk_mb := pyRound2 disk_mb,
    cpu_hours := pyRound2 cpu_hours,
    estimated_runtime_sec := pyRound2 runtime_sec,
    estimated_runtime_human := format_time runtime_sec,
    basis_set_complexity := basis_factor,
    experiment_complexity := experiment_factor,
    molecule_size := { atoms := num_atoms, electrons := num_electrons } }

/-- The `Val` rendering of an orbital dict, keys in source construction order. -/
def orbitalToVal (o : Orbital) : Val :=
  .obj [ ("index", .num o.index), ("energy", .num o.energy),
         ("occupation", .num o.occupation), ("symmetry", .str o.symmetry) ]

/-- The `Val` rendering of the `run_ground_state_calculation` result dict. -/
def groundToVal (g : GroundResult) : Val :=
  .obj [ ("energy", .num g.energy),
         ("reference_energy", .num g.reference_energy),
         ("iterations", .num g.iterations),
         ("runtime", .num g.runtime),
         ("orbitals", .arr (g.orbitals.map orbitalToVal)),
         ("converged", .bool g.converged),
         ("dipole_moment", .arr (g.dipole_moment.map Val.num)),
         ("method", .str g.method),
         ("basis_set", .str g.basis_set),
         ("timestamp", .str g.timestamp) ]

/-- The `Val` rendering of an excited-state dict. -/
def excitedStateToVal (s : ExcitedState) : Val :=
  .obj [ ("state", .num s.state),
         ("excitation_energy_ev", .num s.excitation_energy_ev),
         ("excitation_energy", .num s.excitation_energy),
         ("total_energy", .num s.total_energy),
         ("oscillator_strength", .num s.oscillator_strength),
         ("description", .str s.description) ]

/-- The `Val` rendering of the `run_excited_state_calculation` result dict. -/
def excitedToVal (e : ExcitedResult) : Val :=
  .obj [ ("energy", .num e.energy),
         ("reference_energy", .num e.reference_energy),
         ("iterations", .num e.iterations),
         ("runtime", .num e.runtime),
         ("excited_states", .arr (e.excited_states.map excitedStateToVal)),
         ("ground_state_data", groundToVal e.ground_state_data),
         ("method", .str e.method),
         ("basis_set", .str e.basis_set),
         ("timestamp", .str e.timestamp) ]

/-- The `Val` rendering of an atom dict. -/
def atomToVal (a : Atom) : Val :=
  .obj [ ("symbol", .str a.symbol), ("x", .num a.x), ("y", .num a.y), ("z", .num a.z) ]

/-- The `Val` rendering of an `optimized_geometry` sub-dict. -/
def optimizedGeometryToVal (g : OptimizedGeometry) : Val :=
  .obj [ ("atoms", .arr (g.atoms.map atomToVal)),
         ("charge", .num g.charge),
         ("multiplicity", .num g.multiplicity) ]

/-- The `Val` rendering of an optimization-step dict. -/
def optStepToVal (s : OptStep) : Val :=
  .obj [ ("step", .num s.step), ("energy", .num s.energy),
         ("rms_gradient", .num s.rms_gradient), ("max_force", .num s.max_force) ]

/-- The `Val` rendering of the `run_geometry_optimization` result dict. -/
def geomToVal (g : GeomResult) : Val :=
  .obj [ ("energy", .num g.energy),
         ("reference_energy", .num g.reference_energy),
         ("iterations", .num g.iterations),
         ("runtime", .num g.runtime),
         ("optimized_geometry", optimizedGeometryToVal g.optimized_geometry),
         ("optimization_steps", .arr (g.optimization_steps.map optStepToVal)),
         ("converged", .bool g.converged),
         ("method", .str g.method),
         ("basis_set", .str g.basis_set),
         ("timestamp", .str g.timestamp) ]

/-- The `Val` rendering of a displacement dict. -/
def displacementToVal (d : Displacement) : Val :=
  .obj [ ("atom", .num d.atom), ("dx", .num d.dx), ("dy", .num d.dy), ("dz", .num d.dz) ]

/-- The `Val` rendering of a vibrational-mode dict. -/
def vibrationModeToVal (m : VibrationMode) : Val :=
  .obj [ ("mode", .num m.mode),
         ("frequency", .num m.frequency),
         ("intensity", .num m.intensity),
         ("reduced_mass", .num m.reduced_mass),
         ("force_constant", .num m.force_constant),
         ("displacements", .arr (m.displacements.map displacementToVal)) ]

/-- The `Val` rendering of the `run_vibrational_analysis` result dict. -/
def vibToVal (v : VibResult) : Val :=
  .obj [ ("energy", .num v.energy),
         ("reference_energy", .num v.reference_energy),
         ("iterations", .num v.iterations),
         ("runtime", .num v.runtime),
         ("optimized_geometry", optimizedGeometryToVal v.optimized_geometry),
         ("vibrations", .arr (v.vibrations.map vibrationModeToVal)),
         ("zero_point_energy", .num v.zero_point_energy),
         ("method", .str v.method),
         ("basis_set", .str v.basis_set),
         ("timestamp", .str v.timestamp) ]

/-- The `Val` rendering of the `run_dipole_moment` result dict; the `total`
entry is the source's `(dx**2 + dy**2 + dz**2) ** 0.5`. -/
def dipoleToVal (p : DipoleResult) : Val :=
  .obj [ ("energy", .num p.energy),
         ("reference_energy", .num p.reference_energy),
         ("iterations", .num p.iterations),
         ("runtime", .num p.runtime),
         ("dipole_moment", .obj
           [ ("x", .num p.dipole_moment.x),
             ("y", .num p.dipole_moment.y),
             ("z", .num p.dipole_moment.z),
             ("total", .sqrtOf (p.dipole_moment.x ^ 2 + p.dipole_moment.y ^ 2
                                  + p.dipole_moment.z ^ 2)) ]),
         ("method", .str p.method),
         ("basis_set", .str p.basis_set),
         ("timestamp", .str p.timestamp) ]

/-- The `Val` rendering of a mock-engine result. -/
def mockResultToVal : MockResult → Val
  | .ground g => groundToVal g
  | .excited e => excitedToVal e
  | .geom g => geomToVal g
  | .vib v => vibToVal v
  | .dipole p => dipoleToVal p

end MockQuantumAdapter

namespace AntimatterSimulator

/-- The result dict shared by the two antimatter simulations; `data` carries
the payload sub-dict. -/
structure AntimatterResult where
  energy : ℚ
  reference_energy : ℚ
  iterations : ℕ
  runtime : ℚ
  convergence : ℚ
  data : List (String × Val)
deriving Repr

/-- Embedding of `AntimatterSimulator.simulate_positronium`.  `iterDraw` defunctionalises
`np.random.randint(50, 150)` (high exclusive): iterations = `50 + iterDraw % 100`;
`elapsed` is the wall-clock `time.time() - start_time`.  The configuration
argument of the source is unused. -/
def simulate_positronium (iterDraw : ℕ) (elapsed : ℚ) : AntimatterResult :=
  let reduced_mass : ℚ := 1/2
  let binding_energy : ℚ := -(136/10) / (1 * 1)
  let energy_hartree := binding_energy / (27211386/1000000)
  let reference_energy : ℚ := -(1/4)
  let iterations := 50 + iterDraw % 100
  let convergence := |energy_hartree - reference_energy|
  { energy := energy_hartree,
    reference_energy := reference_energy,
    iterations := iterations,
    runtime := elapsed,
    convergence := convergence,
    data :=
      [ ("reduced_mass", .num reduced_mass),
        ("principal_quantum_number", .num 1),
        ("binding_energy_ev", .num binding_energy),
        ("annihilation_rate", .num 7990000000),
        ("lifetime", .num (125/1000000000)),
        ("system_type", .str "para-positronium") ] }

/-- Embedding of `AntimatterSimulator.simulate_antihydrogen`.  `cptDraw` defunctionalises
`np.random.normal(0, 1e-7)` (an unbounded real draw); `iterDraw`
defunctionalises `np.random.randint(30, 100)` (high exclusive):
iterations = `30 + iterDraw % 70`. -/
def simulate_antihydrogen (cptDraw : ℚ) (iterDraw : ℕ) (elapsed : ℚ) : AntimatterResult :=
  let energy_ev : ℚ := -(136/10) / (1 * 1)
  let energy_hartree := energy_ev / (27211386/1000000) + cptDraw
  let reference_energy : ℚ := -(1/2)
  let iterations := 30 + iterDraw % 70
  let convergence := |energy_hartree - reference_energy|
  { energy := energy_hartree,
    reference_energy := reference_energy,
    iterations := iterations,
    runtime := elapsed,
    convergence := convergence,
    data :=
      [ ("principal_quantum_number", .num 1),
        ("cpt_violation", .num cptDraw),
        ("gravity_effect", .str "not calculated"),
        ("binding_energy_ev", .num energy_ev),
        ("system_type", .str "antihydrogen") ] }

/-- The `Val` rendering of an antimatter result dict. -/
def antimatterToVal (r : AntimatterResult) : Val :=
  .obj [ ("energy", .num r.energy),
         ("reference_energy", .num r.reference_energy),
         ("iterations", .num r.iterations),
         ("runtime", .num r.runtime),
         ("convergence", .num r.convergence),
         ("data", .obj r.data) ]

end AntimatterSimulator

namespace QuantumModuleManager

/-- The quantum-resource estimate shape of the generic heuristic path:
`{"qubits": int(qubits), "depth": int(depth), "runtime": runtime_estimate}`. -/
structure QuantumEstimate where
  qubits : ℤ
  depth : ℤ
  runtime : String
deriving Repr, DecidableEq

/-- The system adjustment of the generic heuristic (manager.py lines 80–89):
applied to base 2 qubits / depth 10 / band "2-5 seconds" for the lowercased
system id. -/
def genericSystemAdjust (lowered : String) : ℚ × ℚ × String :=
  if lowered = "h2o" ∨ lowered = "lih" then
    (2 + 6, 10 + 30, "10-30 seconds")
  else if lowered = "h2" then
    (2 + 2, 10 + 10, "2-5 seconds")
  else if lowered = "h" ∨ lowered = "he" ∨ lowered = "li" then
    (2 + 1, 10, "2-5 seconds")
  else
    (2, 10, "2-5 seconds")

/-- The algorithm adjustment of the generic heuristic (`if algorithm == "VQE": …`). -/
def genericAlgorithmAdjust (algorithm : String) (s : ℚ × ℚ × String) : ℚ × ℚ × String :=
  if algorithm = "VQE" then (s.1, s.2.1 * (15/10), s.2.2)
  else if algorithm = "QAOA" then (s.1, s.2.1 * 2, s.2.2)
  else if algorithm = "QPE" then (s.1 * 2, s.2.1 * 3, "30-60 seconds")
  else s

/-- The ansatz adjustment of the generic heuristic (`if ansatz == "UCCSD": …`). -/
def genericAnsatzAdjust (ansatz : String) (s : ℚ × ℚ) : ℚ × ℚ :=
  if ansatz = "UCCSD" then (s.1 + 2, s.2 * 2)
  else if ansatz = "HWE" then (s.1, s.2 + 10)
  else s

/-- The generic qubit/depth heuristic of `QuantumModuleManager.estimate_resources`
(manager.py lines 75–115): base 2 qubits / depth 10 / band "2-5 seconds",
adjusted in sequence by the case-insensitive system id, the uppercased
algorithm and the uppercased ansatz (the in-place mutations of the source
are staged through the three adjustment functions above); qubits and depth
are emitted through Python `int()`. -/
def genericEstimate (system_id : String) (configuration : Config) : QuantumEstimate :=
  let sys := genericSystemAdjust (pyLower system_id)
  let alg := genericAlgorithmAdjust (pyUpper (configuration.algorithm.getD "")) sys
  let ans := genericAnsatzAdjust (pyUpper (configuration.ansatz.getD "")) (alg.1, alg.2.1)
  { qubits := pyInt ans.1, depth := pyInt ans.2, runtime := alg.2.2 }

/-- A resource estimate: either the classical-resource shape of the
mock-catalog path or the quantum-resource shape of the generic heuristic. -/
inductive ResourceEstimate where
  | classical (c : MockQuantumAdapter.ClassicalEstimate)
  | quantum (q : QuantumEstimate)
deriving Repr, DecidableEq

/-- The case-insensitive catalog scan of manager.py (`for system in SYSTEMS:
if system["id"].lower() == system_id.lower(): …`). -/
def findSystem (system_id : String) : Option Molecule :=
  MockQuantumAdapter.SYSTEMS.find? fun s => pyLower s.id = pyLower system_id

/-- Embedding of `QuantumModuleManager.estimate_resources` in mock mode, with the call into
the adapter abstracted as `mockEst` so that the `try/except` around the
mock-catalog path can be stated over every possible outcome of that call
(`.error` rendering a raised exception, which the source catches and logs,
falling through to the generic heuristic).  The basis set and experiment type
handed to the adapter are `configuration.get("basis_set", "sto-3g")` and
`configuration.get("experiment_type", "ground_state")`. -/
def estimateResourcesCore
    (mockEst : Molecule → String → String → Except String MockQuantumAdapter.ClassicalEstimate)
    (system_id : String) (configuration : Config) : ResourceEstimate :=
  match findSystem system_id with
  | some molecule_data =>
    match mockEst molecule_data (configuration.basis_set.getD "sto-3g")
        (configuration.experiment_type.getD "ground_state") with
    | .ok est => .classical est
    | .error _ => .quantum (genericEstimate system_id configuration)
  | none => .quantum (genericEstimate system_id configuration)

/-- Embedding of `QuantumModuleManager.estimate_resources` in mock mode: the core with the
actual (non-raising) adapter estimator plugged in. -/
def estimate_resources (system_id : String) (configuration : Config) : ResourceEstimate :=
  estimateResourcesCore
    (fun m b e => .ok (MockQuantumAdapter.estimate_resources m b e))
    system_id configuration

/-- The public-to-internal experiment-type map of `run_experiment`. -/
def experiment_map : List (String × String) :=
  [ ("ground", "ground_state"),
    ("excited", "excited_state"),
    ("geometry", "geometry_optimization"),
    ("vibrational", "vibrational_analysis"),
    ("dipole", "dipole_moment") ]

/-- Embedding of `experiment_map.get(experiment_type, experiment_type)`: the translation
falls through unchanged on any key outside the map. -/
def experimentTranslate (experiment_type : String) : String :=
  (experiment_map.lookup experiment_type).getD experiment_type

/-- The ambient inputs of one `run_experiment` call: the defunctionalised
random draws of whichever engine runs, the engines' wall-clock readings, the
timestamp string, and the manager's own elapsed time `time.time() - start_time`
used by the failure shape. -/
structure RunAmbient where
  mock : MockQuantumAdapter.MockDraws := {}
  /-- `np.random.randint(50, 150)` draw of `simulate_positronium`. -/
  psIterDraw : ℕ := 0
  /-- wall-clock elapsed time inside `simulate_positronium`. -/
  psElapsed : ℚ := 0
  /-- `np.random.normal(0, 1e-7)` draw of `simulate_antihydrogen`. -/
  ahCptDraw : ℚ := 0
  /-- `np.random.randint(30, 100)` draw of `simulate_antihydrogen`. -/
  ahIterDraw : ℕ := 0
  /-- wall-clock elapsed time inside `simulate_antihydrogen`. -/
  ahElapsed : ℚ := 0
  /-- `datetime.now().isoformat()` of the mock engine. -/
  ts : String := ""
  /-- `time.time() - start_time` of the manager's exception handler. -/
  elapsed : ℚ := 0

/-- The failure result dict built by `run_experiment`'s exception handler. -/
def failureVal (msg system_id basis_set experiment_type : String) (elapsed : ℚ) : Val :=
  .obj [ ("error", .str msg),
         ("system_id", .str system_id),
         ("basis_set", .str basis_set),
         ("experiment_type", .str experiment_type),
         ("runtime", .num elapsed) ]

/-- The success-path epilogue of `run_experiment`: stamp the three identifying
parameters onto the result dict. -/
def stampResult (v : Val) (system_id basis_set experiment_type : String) : Val :=
  ((v.set "system_id" (.str system_id)).set "basis_set" (.str basis_set)).set
    "experiment_type" (.str experiment_type)

/-- Embedding of `QuantumModuleManager.run_experiment` in mock mode (manager.py lines
139–217).  The `try` block body is rendered as an `Except String Val`
computation (`ValueError` ↦ `.error`): antimatter prefix dispatch, else the
case-insensitive catalog scan (`.error` on an unknown id), the
public-to-internal experiment-type translation, the mock-engine dispatch, and
the `data`-key backfill; the `except` arm converts any error into the failure
dict carrying the elapsed runtime. -/
def run_experiment (system_id basis_set experiment_type : String)
    (configuration : Config) (a : RunAmbient) : Val :=
  let attempt : Except String Val :=
    if pyStartsWith system_id "anti_" then
      if system_id = "anti_H" then
        .ok (AntimatterSimulator.antimatterToVal
          (AntimatterSimulator.simulate_antihydrogen a.ahCptDraw a.ahIterDraw a.ahElapsed))
      else if system_id = "anti_Ps" then
        .ok (AntimatterSimulator.antimatterToVal
          (AntimatterSimulator.simulate_positronium a.psIterDraw a.psElapsed))
      else
        .error ("Unsupported antimatter system: " ++ system_id)
    else
      match findSystem system_id with
      | none => .error ("Unknown system ID: " ++ system_id)
      | some molecule_data =>
        let mock_experiment_type := experimentTranslate experiment_type
        match MockQuantumAdapter.run_experiment mock_experiment_type molecule_data
            basis_set configuration a.mock a.ts with
        | .error e => .error e
        | .ok r =>
          let v := MockQuantumAdapter.mockResultToVal r
          .ok (if (v.get? "data").isSome then v else v.set "data" (.obj []))
  match attempt with
  | .ok v => stampResult v system_id basis_set experiment_type
  | .error e => failureVal e system_id basis_set experiment_type a.elapsed

end QuantumModuleManager

/-- C3: a run for system_id "anti_Ps" returns a Success whose reference_energy
equals -0.25 exactly, a run for "anti_H" returns a Success whose
reference_energy equals -0.5 exactly, and in both the convergence field equals
|energy - reference_energy|; the positronium payload includes annihilation
rate 7.99e9 per second, lifetime 125 ns (125e-9 s), and system_type
"para-positronium".  Stated for every basis set, experiment type,
configuration and every ambient draw. -/
theorem antimatter_reference_energies_exact (basis_set experiment_type : String)
    (cfg : Config) (a : QuantumModuleManager.RunAmbient) :
    (QuantumModuleManager.run_experiment "anti_Ps" basis_set experiment_type cfg a).get?
        "error" = none ∧
    (QuantumModuleManager.run_experiment "anti_Ps" basis_set experiment_type cfg a).get?
        "reference_energy" = some (.num (-(1/4))) ∧
    (∃ e c : ℚ,
      (QuantumModuleManager.run_experiment "anti_Ps" basis_set experiment_type cfg a).get?
          "energy" = some (.num e) ∧
      (QuantumModuleManager.run_experiment "anti_Ps" basis_set experiment_type cfg a).get?
          "convergence" = some (.num c) ∧
      c = |e - (-(1/4))|) ∧
    (∃ fields,
      (QuantumModuleManager.run_experiment "anti_Ps" basis_set experiment_type cfg a).get?
          "data" = some (.obj fields) ∧
      lookupField fields "annihilation_rate" = some (.num 7990000000) ∧
      lookupField fields "lifetime" = some (.num (125/1000000000)) ∧
      lookupField fields "system_type" = some (.str "para-positronium")) ∧
    (QuantumModuleManager.run_experiment "anti_H" basis_set experiment_type cfg a).get?
        "error" = none ∧
    (QuantumModuleManager.run_experiment "anti_H" basis_set experiment_type cfg a).get?
        "reference_energy" = some (.num (-(1/2))) ∧
    (∃ e c : ℚ,
      (QuantumModuleManager.run_experiment "anti_H" basis_set experiment_type cfg a).get?
          "energy" = some (.num e) ∧
      (QuantumModuleManager.run_experiment "anti_H" basis_set experiment_type cfg a).get?
          "convergence" = some (.num c) ∧
      c = |e - (-(1/2))|) := by
  refine ⟨rfl, rfl, ⟨_, _, rfl, rfl, rfl⟩, ⟨_, rfl, rfl, rfl, rfl⟩, rfl, rfl,
    ⟨_, _, rfl, rfl, rfl⟩⟩

/-- C1 (counterexample): at the concrete input
`run_experiment("h2o", "sto-3g", "ground", {})` (all draws zero, in mock mode)
the result is a Success whose `data` payload is the empty mapping backfilled by
the dispatch manager — it contains no `orbitals` entry; the length-6 orbitals
list sits at the top level of the result instead. -/
theorem h2o_ground_data_payload_empty :
    (QuantumModuleManager.run_experiment "h2o" "sto-3g" "ground" {} {}).get? "error" = none ∧
    (QuantumModuleManager.run_experiment "h2o" "sto-3g" "ground" {} {}).get? "data" =
      some (.obj []) ∧
    (Val.obj []).get? "orbitals" = none ∧
    (∃ l, (QuantumModuleManager.run_experiment "h2o" "sto-3g" "ground" {} {}).get? "orbitals" =
      some (.arr l) ∧ l.length = 6) :=
  ⟨rfl, rfl, rfl, ⟨_, rfl, rfl⟩⟩

/-- C1 (amended): `run_experiment("h2o", "sto-3g", "ground", c)` in mock mode
is a Success whose energy lies in [-74.964, -74.962] (reference -74.963 plus
the `random.uniform(-0.001, 0.001)` noise), whose iterations lie in [10, 30],
and which carries an orbitals list of length 6 (3 atoms × 2) at the top level
of the result, its `data` payload being backfilled as the empty mapping. -/
theorem h2o_ground_run_shape (cfg : Config) (a : QuantumModuleManager.RunAmbient)
    (hlo : -(1/1000) ≤ a.mock.ground.energyNoise)
    (hhi : a.mock.ground.energyNoise ≤ 1/1000) :
    (QuantumModuleManager.run_experiment "h2o" "sto-3g" "ground" cfg a).get? "error" = none ∧
    (∃ e : ℚ,
      (QuantumModuleManager.run_experiment "h2o" "sto-3g" "ground" cfg a).get? "energy" =
        some (.num e) ∧ -(74964/1000) ≤ e ∧ e ≤ -(74962/1000)) ∧
    (∃ n : ℕ,
      (QuantumModuleManager.run_experiment "h2o" "sto-3g" "ground" cfg a).get? "iterations" =
        some (.num n) ∧ 10 ≤ n ∧ n ≤ 30) ∧
    (∃ l,
      (QuantumModuleManager.run_experiment "h2o" "sto-3g" "ground" cfg a).get? "orbitals" =
        some (.arr l) ∧ l.length = 6) ∧
    (QuantumModuleManager.run_experiment "h2o" "sto-3g" "ground" cfg a).get? "data" =
      some (.obj []) := by
  refine ⟨rfl, ⟨-74963/1000 + a.mock.ground.energyNoise, rfl, by linarith, by linarith⟩,
    ⟨10 + a.mock.ground.iterDraw % 21, rfl, Nat.le_add_right 10 _, by omega⟩,
    ⟨_, rfl, rfl⟩, rfl⟩

/-- C1 (witness): the amended statement at the concrete configuration and
all-zero draws. -/
theorem h2o_ground_run_shape_witness :
    (QuantumModuleManager.run_experiment "h2o" "sto-3g" "ground" {} {}).get? "error" = none ∧
    (∃ e : ℚ,
      (QuantumModuleManager.run_experiment "h2o" "sto-3g" "ground" {} {}).get? "energy" =
        some (.num e) ∧ -(74964/1000) ≤ e ∧ e ≤ -(74962/1000)) ∧
    (∃ n : ℕ,
      (QuantumModuleManager.run_experiment "h2o" "sto-3g" "ground" {} {}).get? "iterations" =
        some (.num n) ∧ 10 ≤ n ∧ n ≤ 30) ∧
    (∃ l,
      (QuantumModuleManager.run_experiment "h2o" "sto-3g" "ground" {} {}).get? "orbitals" =
        some (.arr l) ∧ l.length = 6) ∧
    (QuantumModuleManager.run_experiment "h2o" "sto-3g" "ground" {} {}).get? "data" =
      some (.obj []) :=
  h2o_ground_run_shape {} {} (by norm_num) (by norm_num)

/-- C2: in mock mode `run_experiment` never raises — for every input, either
the result is a Success (no "error" key) or it is exactly the failure dict
carrying the error message, the three identifying parameters and the elapsed
runtime; and an unknown system id (no antimatter prefix, no catalog match)
yields the failure dict whose message is "Unknown system ID: " followed by the
id. -/
theorem run_experiment_never_raises (system_id basis_set experiment_type : String)
    (cfg : Config) (a : QuantumModuleManager.RunAmbient)
    (hanti : pyStartsWith system_id "anti_" = false)
    (hfind : QuantumModuleManager.findSystem system_id = none) :
    (∀ (sid bs et : String) (c : Config) (amb : QuantumModuleManager.RunAmbient),
      (QuantumModuleManager.run_experiment sid bs et c amb).get? "error" = none ∨
      ∃ msg, QuantumModuleManager.run_experiment sid bs et c amb =
        QuantumModuleManager.failureVal msg sid bs et amb.elapsed) ∧
    QuantumModuleManager.run_experiment system_id basis_set experiment_type cfg a =
      QuantumModuleManager.failureVal ("Unknown system ID: " ++ system_id)
        system_id basis_set experiment_type a.elapsed := by
  constructor
  · intro sid bs et c amb
    by_cases h1 : pyStartsWith sid "anti_" = true
    · by_cases h2 : sid = "anti_H"
      · subst h2
        exact Or.inl (by simp only [QuantumModuleManager.run_experiment, h1, if_true]; rfl)
      · by_cases h3 : sid = "anti_Ps"
        · subst h3
          exact Or.inl (by simp only [QuantumModuleManager.run_experiment, h1, if_true]; rfl)
        · exact Or.inr ⟨"Unsupported antimatter system: " ++ sid,
            by simp [QuantumModuleManager.run_experiment, h1, h2, h3]⟩
    · have h1f : pyStartsWith sid "anti_" = false := by simpa using h1
      cases hf : QuantumModuleManager.findSystem sid with
      | none =>
        exact Or.inr ⟨"Unknown system ID: " ++ sid,
          by simp [QuantumModuleManager.run_experiment, h1f, hf]⟩
      | some mol =>
        cases hres : MockQuantumAdapter.run_experiment
            (QuantumModuleManager.experimentTranslate et) mol bs c amb.mock amb.ts with
        | error e =>
          exact Or.inr ⟨e, by simp [QuantumModuleManager.run_experiment, h1f, hf, hres]⟩
        | ok r =>
          left
          simp only [QuantumModuleManager.run_experiment, h1f, hf, hres, Bool.false_eq_true,
            if_false]
          cases r <;> rfl
  · simp [QuantumModuleManager.run_experiment, hanti, hfind]

/-- C2 (witness): the statement at the concrete unknown system id "nosuch". -/
theorem run_experiment_never_raises_witness :
    (∀ (sid bs et : String) (c : Config) (amb : QuantumModuleManager.RunAmbient),
      (QuantumModuleManager.run_experiment sid bs et c amb).get? "error" = none ∨
      ∃ msg, QuantumModuleManager.run_experiment sid bs et c amb =
        QuantumModuleManager.failureVal msg sid bs et amb.elapsed) ∧
    QuantumModuleManager.run_experiment "nosuch" "sto-3g" "ground" {} {} =
      QuantumModuleManager.failureVal ("Unknown system ID: " ++ "nosuch")
        "nosuch" "sto-3g" "ground" ({} : QuantumModuleManager.RunAmbient).elapsed :=
  run_experiment_never_raises "nosuch" "sto-3g" "ground" {} {} rfl rfl

/-- C4: on the generic heuristic path (system id not in the mock catalog) the
estimate is the generic qubit/depth/band computation from base
(2 qubits, depth 10, "2-5 seconds") with the system, algorithm and ansatz
adjustments, qubits and depth truncated to integers; in particular
`estimate_resources("unknown_system", {"algorithm": "QPE"})` returns 4 qubits,
depth 30 and the "30-60 seconds" band. -/
theorem generic_resource_estimate (system_id : String) (configuration : Config)
    (hfind : QuantumModuleManager.findSystem system_id = none) :
    QuantumModuleManager.estimate_resources system_id configuration =
      .quantum (QuantumModuleManager.genericEstimate system_id configuration) ∧
    QuantumModuleManager.estimate_resources "unknown_system" { algorithm := some "QPE" } =
      .quantum { qubits := 4, depth := 30, runtime := "30-60 seconds" } := by
  constructor
  · simp [QuantumModuleManager.estimate_resources,
      QuantumModuleManager.estimateResourcesCore, hfind]
  · have h1 : pyLower "unknown_system" = "unknown_system" := rfl
    have h2 : pyUpper "QPE" = "QPE" := rfl
    have h3 : pyUpper "" = "" := rfl
    have h4 : QuantumModuleManager.findSystem "unknown_system" = none := rfl
    simp [QuantumModuleManager.estimate_resources, QuantumModuleManager.estimateResourcesCore,
      h4, QuantumModuleManager.genericEstimate, QuantumModuleManager.genericSystemAdjust,
      QuantumModuleManager.genericAlgorithmAdjust, QuantumModuleManager.genericAnsatzAdjust,
      h1, h2, h3, pyInt]
    norm_num

/-- C4 (witness): the statement at the concrete system id "unknown_system". -/
theorem generic_resource_estimate_witness :
    QuantumModuleManager.estimate_resources "unknown_system" { algorithm := some "QPE" } =
      .quantum (QuantumModuleManager.genericEstimate "unknown_system"
        { algorithm := some "QPE" }) ∧
    QuantumModuleManager.estimate_resources "unknown_system" { algorithm := some "QPE" } =
      .quantum { qubits := 4, depth := 30, runtime := "30-60 seconds" } :=
  generic_resource_estimate "unknown_system" { algorithm := some "QPE" } rfl

/-- C5: `estimate_resources` never propagates a failure of the mock-catalog
path: for every possible outcome of the adapter call (abstracted as `mockEst`),
if the call on the catalog molecule raises (returns `.error`), the exception is
swallowed and the function still returns the generic qubit/depth/band
estimate. -/
theorem estimate_resources_swallows_mock_errors
    (mockEst : Molecule → String → String → Except String MockQuantumAdapter.ClassicalEstimate)
    (system_id : String) (configuration : Config) (mol : Molecule) (msg : String)
    (hfind : QuantumModuleManager.findSystem system_id = some mol)
    (herr : mockEst mol (configuration.basis_set.getD "sto-3g")
        (configuration.experiment_type.getD "ground_state") = .error msg) :
    QuantumModuleManager.estimateResourcesCore mockEst system_id configuration =
      .quantum (QuantumModuleManager.genericEstimate system_id configuration) := by
  simp [QuantumModuleManager.estimateResourcesCore, hfind, herr]

/-- C5 (witness): the statement at a concrete always-raising adapter call on
the catalog system "h2o". -/
theorem estimate_resources_swallows_mock_errors_witness :
    QuantumModuleManager.estimateResourcesCore (fun _ _ _ => .error "boom") "h2o" {} =
      .quantum (QuantumModuleManager.genericEstimate "h2o" {}) :=
  estimate_resources_swallows_mock_errors (fun _ _ _ => .error "boom") "h2o" {}
    MockQuantumAdapter.h2oSystem "boom" rfl rfl

/-- C6: for every catalog molecule and basis set (and any configuration and
draws), the excited-state computation runs the ground-state computation first
and reuses it: its energy and reference_energy equal the embedded ground-state
result's unchanged, it produces `num_states` (default 3) excited states, each
state's total_energy is the ground energy plus that state's excitation_energy,
and the full ground-state result is embedded as the `ground_state_data`
field. -/
theorem excited_state_reuses_ground (mol : Molecule) (basis_set : String)
    (kwargs : Config) (d : MockQuantumAdapter.ExcitedDraws) (ts : String)
    (_hmol : mol ∈ MockQuantumAdapter.SYSTEMS) :
    (MockQuantumAdapter.run_excited_state_calculation mol basis_set kwargs d ts).energy =
      (MockQuantumAdapter.run_ground_state_calculation mol basis_set d.ground ts).energy ∧
    (MockQuantumAdapter.run_excited_state_calculation mol basis_set kwargs d ts).reference_energy =
      (MockQuantumAdapter.run_ground_state_calculation mol basis_set d.ground ts).reference_energy ∧
    (MockQuantumAdapter.run_excited_state_calculation mol basis_set kwargs d ts).ground_state_data =
      MockQuantumAdapter.run_ground_state_calculation mol basis_set d.ground ts ∧
    (MockQuantumAdapter.run_excited_state_calculation mol basis_set kwargs d ts).excited_states.length =
      kwargs.num_states.getD 3 ∧
    ∀ s ∈ (MockQuantumAdapter.run_excited_state_calculation mol basis_set kwargs d ts).excited_states,
      s.total_energy =
        (MockQuantumAdapter.run_ground_state_calculation mol basis_set d.ground ts).energy +
          s.excitation_energy := by
  refine ⟨rfl, rfl, rfl, ?_, ?_⟩
  · simp [MockQuantumAdapter.run_excited_state_calculation]
  · intro s hs
    simp only [MockQuantumAdapter.run_excited_state_calculation, List.mem_map] at hs
    obtain ⟨i, hi, rfl⟩ := hs
    rfl

/-- C6 (witness): the statement at the concrete catalog molecule h2o with
basis "sto-3g", default configuration and all-zero draws. -/
theorem excited_state_reuses_ground_witness :
    (MockQuantumAdapter.run_excited_state_calculation MockQuantumAdapter.h2oSystem "sto-3g" {} {} "t").energy =
      (MockQuantumAdapter.run_ground_state_calculation MockQuantumAdapter.h2oSystem "sto-3g" {} "t").energy ∧
    (MockQuantumAdapter.run_excited_state_calculation MockQuantumAdapter.h2oSystem "sto-3g" {} {} "t").reference_energy =
      (MockQuantumAdapter.run_ground_state_calculation MockQuantumAdapter.h2oSystem "sto-3g" {} "t").reference_energy ∧
    (MockQuantumAdapter.run_excited_state_calculation MockQuantumAdapter.h2oSystem "sto-3g" {} {} "t").ground_state_data =
      MockQuantumAdapter.run_ground_state_calculation MockQuantumAdapter.h2oSystem "sto-3g" {} "t" ∧
    (MockQuantumAdapter.run_excited_state_calculation MockQuantumAdapter.h2oSystem "sto-3g" {} {} "t").excited_states.length =
      (({} : Config)).num_states.getD 3 ∧
    ∀ s ∈ (MockQuantumAdapter.run_excited_state_calculation MockQuantumAdapter.h2oSystem "sto-3g" {} {} "t").excited_states,
      s.total_energy =
        (MockQuantumAdapter.run_ground_state_calculation MockQuantumAdapter.h2oSystem "sto-3g" {} "t").energy +
          s.excitation_energy :=
  excited_state_reuses_ground MockQuantumAdapter.h2oSystem "sto-3g" {} {} "t"
    (List.Mem.head _)

/-- C7 (counterexample): for the catalog molecule co2 with basis "sto-3g" and
experiment type "dipole_moment" the reported cpu_hours is 5.81, the rounded
value, while the claimed exact formula electrons² × basis_factor ×
experiment_factor × 0.01 gives 22² × 1.0 × 1.2 × 0.01 = 5.808 ≠ 5.81. -/
theorem co2_dipole_cpu_hours_rounded :
    MockQuantumAdapter.co2System ∈ MockQuantumAdapter.SYSTEMS ∧
    (MockQuantumAdapter.estimate_resources MockQuantumAdapter.co2System "sto-3g"
      "dipole_moment").cpu_hours = 581/100 ∧
    ((22:ℚ)^2 * 1 * (12/10) * (1/100)) = 5808/1000 ∧
    (581/100 : ℚ) ≠ 5808/1000 := by
  refine ⟨List.Mem.tail _ (List.Mem.tail _ (List.Mem.tail _ (List.Mem.head _))), ?_,
    by norm_num, by norm_num⟩
  have h : (MockQuantumAdapter.estimate_resources MockQuantumAdapter.co2System "sto-3g"
      "dipole_moment").cpu_hours = pyRound2 ((((22:ℕ)):ℚ)^2 * 1 * (12/10) * (1/100)) := rfl
  rw [h]
  norm_num [pyRound2, pyRoundHalfEven]

/-- C7 (amended): for every catalog molecule, basis set and experiment type,
the classical-resource estimate reports memory_mb, disk_mb, cpu_hours and
estimated_runtime_sec as the formula values electrons² × basis_factor ×
experiment_factor × 0.1, memory × 5, electrons² × basis_factor ×
experiment_factor × 0.01 and cpu_hours × 3600 / 8 (the latter from the
unrounded cpu_hours), each rounded half-to-even to two decimal places; the
factor tables and their 1.0 defaults are as claimed, and the human-readable
runtime string is selected from the unrounded runtime seconds by the bands
<60 s (seconds), <3600 s (minutes), <86400 s (hours), else days, each with one
decimal place. -/
theorem classical_estimate_rounded_formulas (mol : Molecule)
    (basis_set experiment_type : String) (_hmol : mol ∈ MockQuantumAdapter.SYSTEMS) :
    (MockQuantumAdapter.estimate_resources mol basis_set experiment_type).memory_mb =
      pyRound2 (((mol.atoms.map fun a => MockQuantumAdapter.get_num_electrons a.symbol).sum : ℚ)^2 *
        (([("sto-3g", (1:ℚ)), ("3-21g", 2), ("6-31g", 3), ("cc-pvdz", 4), ("cc-pvtz", 8)]).lookup
          basis_set).getD 1 *
        (([("ground_state", (1:ℚ)), ("excited_state", 25/10), ("geometry_optimization", 3),
          ("vibrational_analysis", 5), ("dipole_moment", 12/10)]).lookup experiment_type).getD 1 *
        (1/10)) ∧
    (MockQuantumAdapter.estimate_resources mol basis_set experiment_type).disk_mb =
      pyRound2 (((mol.atoms.map fun a => MockQuantumAdapter.get_num_electrons a.symbol).sum : ℚ)^2 *
        (([("sto-3g", (1:ℚ)), ("3-21g", 2), ("6-31g", 3), ("cc-pvdz", 4), ("cc-pvtz", 8)]).lookup
          basis_set).getD 1 *
        (([("ground_state", (1:ℚ)), ("excited_state", 25/10), ("geometry_optimization", 3),
          ("vibrational_analysis", 5), ("dipole_moment", 12/10)]).lookup experiment_type).getD 1 *
        (1/10) * 5) ∧
    (MockQuantumAdapter.estimate_resources mol basis_set experiment_type).cpu_hours =
      pyRound2 (((mol.atoms.map fun a => MockQuantumAdapter.get_num_electrons a.symbol).sum : ℚ)^2 *
        (([("sto-3g", (1:ℚ)), ("3-21g", 2), ("6-31g", 3), ("cc-pvdz", 4), ("cc-pvtz", 8)]).lookup
          basis_set).getD 1 *
        (([("ground_state", (1:ℚ)), ("excited_state", 25/10), ("geometry_optimization", 3),
          ("vibrational_analysis", 5), ("dipole_moment", 12/10)]).lookup experiment_type).getD 1 *
        (1/100)) ∧
    (MockQuantumAdapter.estimate_resources mol basis_set experiment_type).estimated_runtime_sec =
      pyRound2 (((mol.atoms.map fun a => MockQuantumAdapter.get_num_electrons a.symbol).sum : ℚ)^2 *
        (([("sto-3g", (1:ℚ)), ("3-21g", 2), ("6-31g", 3), ("cc-pvdz", 4), ("cc-pvtz", 8)]).lookup
          basis_set).getD 1 *
        (([("ground_state", (1:ℚ)), ("excited_state", 25/10), ("geometry_optimization", 3),
          ("vibrational_analysis", 5), ("dipole_moment", 12/10)]).lookup experiment_type).getD 1 *
        (1/100) * 3600 / 8) ∧
    (MockQuantumAdapter.estimate_resources mol basis_set experiment_type).estimated_runtime_human =
      MockQuantumAdapter.format_time
        (((mol.atoms.map fun a => MockQuantumAdapter.get_num_electrons a.symbol).sum : ℚ)^2 *
        (([("sto-3g", (1:ℚ)), ("3-21g", 2), ("6-31g", 3), ("cc-pvdz", 4), ("cc-pvtz", 8)]).lookup
          basis_set).getD 1 *
        (([("ground_state", (1:ℚ)), ("excited_state", 25/10), ("geometry_optimization", 3),
          ("vibrational_analysis", 5), ("dipole_moment", 12/10)]).lookup experiment_type).getD 1 *
        (1/100) * 3600 / 8) ∧
    (∀ s : ℚ, MockQuantumAdapter.format_time s =
      if s < 60 then formatFix1 s ++ " seconds"
      else if s < 3600 then formatFix1 (s / 60) ++ " minutes"
      else if s < 86400 then formatFix1 (s / 3600) ++ " hours"
      else formatFix1 (s / 86400) ++ " days") :=
  ⟨rfl, rfl, rfl, rfl, rfl, fun _ => rfl⟩

/-- C7 (amended, witness): the statement at the concrete catalog molecule co2
with basis "sto-3g" and experiment type "dipole_moment". -/
theorem classical_estimate_rounded_formulas_witness :
    (MockQuantumAdapter.estimate_resources MockQuantumAdapter.co2System "sto-3g"
      "dipole_moment").cpu_hours =
      pyRound2 (((MockQuantumAdapter.co2System.atoms.map
          fun a => MockQuantumAdapter.get_num_electrons a.symbol).sum : ℚ)^2 *
        (([("sto-3g", (1:ℚ)), ("3-21g", 2), ("6-31g", 3), ("cc-pvdz", 4), ("cc-pvtz", 8)]).lookup
          "sto-3g").getD 1 *
        (([("ground_state", (1:ℚ)), ("excited_state", 25/10), ("geometry_optimization", 3),
          ("vibrational_analysis", 5), ("dipole_moment", 12/10)]).lookup "dipole_moment").getD 1 *
        (1/100)) :=
  (classical_estimate_rounded_formulas MockQuantumAdapter.co2System "sto-3g" "dipole_moment"
    (List.Mem.tail _ (List.Mem.tail _ (List.Mem.tail _ (List.Mem.head _))))).2.2.1

/-- C8: for every molecule with N atoms (and any basis set, draws and
timestamp), the vibrational analysis runs the geometry optimization first and
reuses its energy and reference_energy, produces `3*N - 6` vibrational modes
(truncated natural subtraction, matching the emptiness of Python's
`range(3*N - 6)` for N < 2), each carrying one displacement record per atom,
and reports zero_point_energy equal to half the sum of the non-negative mode
frequencies divided by 4.184 and by 1000. -/
theorem vibrational_analysis_shape (mol : Molecule) (basis_set : String)
    (d : MockQuantumAdapter.VibDraws) (ts : String) :
    (MockQuantumAdapter.run_vibrational_analysis mol basis_set d ts).energy =
      (MockQuantumAdapter.run_geometry_optimization mol basis_set d.opt ts).energy ∧
    (MockQuantumAdapter.run_vibrational_analysis mol basis_set d ts).reference_energy =
      (MockQuantumAdapter.run_geometry_optimization mol basis_set d.opt ts).reference_energy ∧
    (MockQuantumAdapter.run_vibrational_analysis mol basis_set d ts).optimized_geometry =
      (MockQuantumAdapter.run_geometry_optimization mol basis_set d.opt ts).optimized_geometry ∧
    (MockQuantumAdapter.run_vibrational_analysis mol basis_set d ts).vibrations.length =
      3 * mol.atoms.length - 6 ∧
    (∀ m ∈ (MockQuantumAdapter.run_vibrational_analysis mol basis_set d ts).vibrations,
      m.displacements.length = mol.atoms.length) ∧
    (MockQuantumAdapter.run_vibrational_analysis mol basis_set d ts).zero_point_energy =
      ((MockQuantumAdapter.run_vibrational_analysis mol basis_set d ts).vibrations.map
        (fun v => max 0 v.frequency)).sum * (1/2) / (4184/1000) / 1000 := by
  refine ⟨rfl, rfl, rfl, ?_, ?_, rfl⟩
  · simp [MockQuantumAdapter.run_vibrational_analysis]
  · intro m hm
    simp only [MockQuantumAdapter.run_vibrational_analysis, List.mem_map] at hm
    obtain ⟨i, hi, rfl⟩ := hm
    simp

/-- C9 (counterexample): the simulated processing delay of the mock engine is
a thread-blocking sleep — the source performs `time.sleep(sim_time)` inside a
plain synchronous method — not a cooperative scheduling yield. -/
theorem delay_blocking_counterexample :
    (MockQuantumAdapter.simulate_calculation_time MockQuantumAdapter.h2oSystem "sto-3g"
      1).mechanism = DelayMechanism.blockingSleep ∧
    DelayMechanism.blockingSleep ≠ DelayMechanism.cooperativeYield :=
  ⟨rfl, by decide⟩

/-- C9 (amended): for every molecule, basis set and factor, the simulated
processing delay performed before each mock experiment kind returns is a
thread-blocking `time.sleep` of `num_atoms × basis_factor × factor × 0.05`
seconds — the current thread is occupied for the delay's duration, so
concurrent in-flight runs sharing a worker thread are serialized by it. -/
theorem delay_is_blocking_sleep (mol : Molecule) (basis_set : String) (factor : ℚ) :
    (MockQuantumAdapter.simulate_calculation_time mol basis_set factor).mechanism =
      DelayMechanism.blockingSleep ∧
    (MockQuantumAdapter.simulate_calculation_time mol basis_set factor).duration =
      (mol.atoms.length : ℚ) *
        (([("sto-3g", (1:ℚ)/10), ("3-21g", 2/10), ("6-31g", 3/10), ("cc-pvdz", 5/10),
          ("cc-pvtz", 1)]).lookup basis_set).getD (1/10) * factor * (5/100) :=
  ⟨rfl, rfl⟩

/-- C10: the public-to-internal experiment-type translation falls through
unchanged for any type outside the five public keys — in particular it leaves
each of the five internal identifiers unchanged — so the internal identifiers
are also accepted directly: passed to the manager they dispatch end-to-end to
the corresponding computation (shown for all five, each result stamped with
the identifying parameters and its empty data mapping backfilled), while any
other string reaches the mock engine's kind dispatch and, through the manager,
produces a Failure whose error message is "Unknown experiment type: " followed
by the given string. -/
theorem experiment_type_fallthrough (t system_id basis_set : String) (cfg : Config)
    (mol : Molecule) (md : MockQuantumAdapter.MockDraws)
    (a : QuantumModuleManager.RunAmbient) (ts : String)
    (hpub : t ∉ ["ground", "excited", "geometry", "vibrational", "dipole"])
    (hint : t ∉ ["ground_state", "excited_state", "geometry_optimization",
      "vibrational_analysis", "dipole_moment"])
    (hanti : pyStartsWith system_id "anti_" = false)
    (hfind : QuantumModuleManager.findSystem system_id = some mol) :
    QuantumModuleManager.experimentTranslate t = t ∧
    (∀ i ∈ ["ground_state", "excited_state", "geometry_optimization",
      "vibrational_analysis", "dipole_moment"],
      QuantumModuleManager.experimentTranslate i = i) ∧
    QuantumModuleManager.run_experiment system_id basis_set "ground_state" cfg a =
      QuantumModuleManager.stampResult
        ((MockQuantumAdapter.groundToVal (MockQuantumAdapter.run_ground_state_calculation
          mol basis_set a.mock.ground a.ts)).set "data" (.obj []))
        system_id basis_set "ground_state" ∧
    QuantumModuleManager.run_experiment system_id basis_set "excited_state" cfg a =
      QuantumModuleManager.stampResult
        ((MockQuantumAdapter.excitedToVal (MockQuantumAdapter.run_excited_state_calculation
          mol basis_set cfg a.mock.excited a.ts)).set "data" (.obj []))
        system_id basis_set "excited_state" ∧
    QuantumModuleManager.run_experiment system_id basis_set "geometry_optimization" cfg a =
      QuantumModuleManager.stampResult
        ((MockQuantumAdapter.geomToVal (MockQuantumAdapter.run_geometry_optimization
          mol basis_set a.mock.geom a.ts)).set "data" (.obj []))
        system_id basis_set "geometry_optimization" ∧
    QuantumModuleManager.run_experiment system_id basis_set "vibrational_analysis" cfg a =
      QuantumModuleManager.stampResult
        ((MockQuantumAdapter.vibToVal (MockQuantumAdapter.run_vibrational_analysis
          mol basis_set a.mock.vib a.ts)).set "data" (.obj []))
        system_id basis_set "vibrational_analysis" ∧
    QuantumModuleManager.run_experiment system_id basis_set "dipole_moment" cfg a =
      QuantumModuleManager.stampResult
        ((MockQuantumAdapter.dipoleToVal (MockQuantumAdapter.run_dipole_moment
          mol basis_set a.mock.dipole a.ts)).set "data" (.obj []))
        system_id basis_set "dipole_moment" ∧
    MockQuantumAdapter.run_experiment t mol basis_set cfg md ts =
      .error ("Unknown experiment type: " ++ t) ∧
    QuantumModuleManager.run_experiment system_id basis_set t cfg a =
      QuantumModuleManager.failureVal ("Unknown experiment type: " ++ t)
        system_id basis_set t a.elapsed := by
  simp only [List.mem_cons, List.not_mem_nil, or_false, not_or] at hpub hint
  obtain ⟨hp1, hp2, hp3, hp4, hp5⟩ := hpub
  obtain ⟨hi1, hi2, hi3, hi4, hi5⟩ := hint
  have htr : QuantumModuleManager.experimentTranslate t = t := by
    simp [QuantumModuleManager.experimentTranslate, QuantumModuleManager.experiment_map,
      List.lookup, beq_eq_false_iff_ne.mpr hp1, beq_eq_false_iff_ne.mpr hp2,
      beq_eq_false_iff_ne.mpr hp3, beq_eq_false_iff_ne.mpr hp4, beq_eq_false_iff_ne.mpr hp5]
  have hmock : ∀ (dd : MockQuantumAdapter.MockDraws) (tt : String),
      MockQuantumAdapter.run_experiment t mol basis_set cfg dd tt =
        .error ("Unknown experiment type: " ++ t) := by
    intro dd tt
    simp [MockQuantumAdapter.run_experiment, hi1, hi2, hi3, hi4, hi5]
  refine ⟨htr, by decide, ?_, ?_, ?_, ?_, ?_, hmock md ts, ?_⟩
  · simp only [QuantumModuleManager.run_experiment, hanti, Bool.false_eq_true, if_false, hfind]
    rfl
  · simp only [QuantumModuleManager.run_experiment, hanti, Bool.false_eq_true, if_false, hfind]
    rfl
  · simp only [QuantumModuleManager.run_experiment, hanti, Bool.false_eq_true, if_false, hfind]
    rfl
  · simp only [QuantumModuleManager.run_experiment, hanti, Bool.false_eq_true, if_false, hfind]
    rfl
  · simp only [QuantumModuleManager.run_experiment, hanti, Bool.false_eq_true, if_false, hfind]
    rfl
  · simp [QuantumModuleManager.run_experiment, hanti, hfind, htr, hmock a.mock a.ts]

/-- C10 (witness): the statement at the concrete unknown type "frobnicate" on
the catalog system "h2o", with default configuration and draws. -/
theorem experiment_type_fallthrough_witness :
    QuantumModuleManager.experimentTranslate "frobnicate" = "frobnicate" ∧
    (∀ i ∈ ["ground_state", "excited_state", "geometry_optimization",
      "vibrational_analysis", "dipole_moment"],
      QuantumModuleManager.experimentTranslate i = i) ∧
    QuantumModuleManager.run_experiment "h2o" "sto-3g" "ground_state" {} {} =
      QuantumModuleManager.stampResult
        ((MockQuantumAdapter.groundToVal (MockQuantumAdapter.run_ground_state_calculation
          MockQuantumAdapter.h2oSystem "sto-3g"
          ({} : QuantumModuleManager.RunAmbient).mock.ground
          ({} : QuantumModuleManager.RunAmbient).ts)).set "data" (.obj []))
        "h2o" "sto-3g" "ground_state" ∧
    QuantumModuleManager.run_experiment "h2o" "sto-3g" "excited_state" {} {} =
      QuantumModuleManager.stampResult
        ((MockQuantumAdapter.excitedToVal (MockQuantumAdapter.run_excited_state_calculation
          MockQuantumAdapter.h2oSystem "sto-3g" {}
          ({} : QuantumModuleManager.RunAmbient).mock.excited
          ({} : QuantumModuleManager.RunAmbient).ts)).set "data" (.obj []))
        "h2o" "sto-3g" "excited_state" ∧
    QuantumModuleManager.run_experiment "h2o" "sto-3g" "geometry_optimization" {} {} =
      QuantumModuleManager.stampResult
        ((MockQuantumAdapter.geomToVal (MockQuantumAdapter.run_geometry_optimization
          MockQuantumAdapter.h2oSystem "sto-3g"
          ({} : QuantumModuleManager.RunAmbient).mock.geom
          ({} : QuantumModuleManager.RunAmbient).ts)).set "data" (.obj []))
        "h2o" "sto-3g" "geometry_optimization" ∧
    QuantumModuleManager.run_experiment "h2o" "sto-3g" "vibrational_analysis" {} {} =
      QuantumModuleManager.stampResult
        ((MockQuantumAdapter.vibToVal (MockQuantumAdapter.run_vibrational_analysis
          MockQuantumAdapter.h2oSystem "sto-3g"
          ({} : QuantumModuleManager.RunAmbient).mock.vib
          ({} : QuantumModuleManager.RunAmbient).ts)).set "data" (.obj []))
        "h2o" "sto-3g" "vibrational_analysis" ∧
    QuantumModuleManager.run_experiment "h2o" "sto-3g" "dipole_moment" {} {} =
      QuantumModuleManager.stampResult
        ((MockQuantumAdapter.dipoleToVal (MockQuantumAdapter.run_dipole_moment
          MockQuantumAdapter.h2oSystem "sto-3g"
          ({} : QuantumModuleManager.RunAmbient).mock.dipole
          ({} : QuantumModuleManager.RunAmbient).ts)).set "data" (.obj []))
        "h2o" "sto-3g" "dipole_moment" ∧
    MockQuantumAdapter.run_experiment "frobnicate" MockQuantumAdapter.h2oSystem "sto-3g" {} {} "t" =
      .error ("Unknown experiment type: " ++ "frobnicate") ∧
    QuantumModuleManager.run_experiment "h2o" "sto-3g" "frobnicate" {} {} =
      QuantumModuleManager.failureVal ("Unknown experiment type: " ++ "frobnicate")
        "h2o" "sto-3g" "frobnicate" ({} : QuantumModuleManager.RunAmbient).elapsed :=
  experiment_type_fallthrough "frobnicate" "h2o" "sto-3g" {} MockQuantumAdapter.h2oSystem {} {} "t"
    (by decide) (by decide) rfl rfl
